import Mathlib

/-!
Verification of the core of `url-manager-rs` (`src/lib.rs`): the `Url`
value type with its `shorten` operation, `Display` and equality
implementations, and the `InMemoryLinkStore` with its `get`, `create`,
`update` and `delete` operations.

Modelling conventions:
- A Rust function that can panic is embedded as returning `Option`, with
  `none` standing for the panic (process/thread abort).
- Mutation of `self` is embedded as explicit state passing: a Rust
  `fn f(&mut self) -> T` becomes a Lean function returning the result
  paired with the updated value.
- The external `url::Url` type is embedded abstractly by the two pieces
  of data this crate reads from it: its serialization (what `Display` /
  `to_string` produce) and its host component (what `host_str` returns).
  Equality of `url::Url` values in the crate is equality of
  serializations.
-/

/-- Abstract embedding of the external `url::Url` type (`UrlType` in the
source's `use url::{ParseError, Url as UrlType}`), carrying exactly what
`src/lib.rs` reads from it: the serialization string and the optional
host component (`host_str()` returns `None` for opaque / hostless URLs,
`Some h` otherwise). -/
structure UrlType where
  serialization : String
  hostStr : Option String
deriving DecidableEq, Repr

/-- Equality of `url::Url` values as implemented by the `url` crate:
two parsed URLs are equal iff their serializations are equal. -/
def UrlType.beq (a b : UrlType) : Bool :=
  a.serialization == b.serialization

/-- The variant of the external `url::ParseError` used by this crate. -/
inductive ParseError where
  | RelativeUrlWithoutBase
deriving DecidableEq, Repr

/-- The `Url` struct of `src/lib.rs`: a parsed `origin` URL and a derived
`shortcut` string. -/
structure Url where
  origin : UrlType
  shortcut : String
deriving DecidableEq, Repr

/-- `impl UrlExtension for Url`, method `shorten`:
`self.shortcut = self.origin.host_str().unwrap().to_string();` followed by
`if !self.shortcut.is_empty() { Ok(true) } else { Err(RelativeUrlWithoutBase) }`.
`none` models the panic of `unwrap()` when `host_str()` is `None`; in that
case the record is not mutated (the panic occurs before the assignment).
Otherwise the result is the returned `Result` paired with the mutated
record. -/
def Url.shorten (u : Url) : Option (Except ParseError Bool × Url) :=
  match u.origin.hostStr with
  | none => none
  | some h =>
    let u' : Url := { u with shortcut := h }
    if !u'.shortcut.isEmpty then
      some (Except.ok true, u')
    else
      some (Except.error ParseError.RelativeUrlWithoutBase, u')

/-- `impl fmt::Display for Url`: panics with "Not initialized" when
`shortcut` is empty (modelled as `none`), otherwise writes `self.origin`
(the origin URL's serialization). -/
def Url.display (u : Url) : Option String :=
  if u.shortcut.isEmpty then none
  else some u.origin.serialization

/-- `impl PartialEq<Url> for &str`: a string equals a `Url` iff it equals
the string form of the record's `origin`. -/
def strEqUrl (s : String) (other : Url) : Bool :=
  s == other.origin.serialization

/-- `impl PartialEq<Url> for UrlType`: a raw `url::Url` equals a `Url`
record iff it equals the record's `origin` (crate equality, i.e. equal
serializations). -/
def urlTypeEqUrl (t : UrlType) (other : Url) : Bool :=
  UrlType.beq t other.origin

/-- The `#[derive(PartialEq)]` on `struct Url`: field-wise equality, the
`origin` fields compared with `url::Url`'s `PartialEq` and the `shortcut`
fields compared as strings. -/
def urlEq (a b : Url) : Bool :=
  UrlType.beq a.origin b.origin && a.shortcut == b.shortcut

/-- `impl From<Url> for String`: conversion returns `origin.to_string()`. -/
def Url.toStringImpl (u : Url) : String :=
  u.origin.serialization

/-- The `Link` struct of `src/lib.rs`: id (`u64`, embedded as `Nat` since
the code does no arithmetic on it), origin and target URLs, and the
creation/update timestamps (`DefaultInstant` wraps an opaque monotonic
`Instant`, embedded as `Nat`). -/
structure Link where
  id : Nat
  origin : UrlType
  target : UrlType
  created_at : Nat
  updated_at : Nat
deriving DecidableEq, Repr

/-- The state of an `InMemoryLinkStore`: the `HashMap<u64, Link>` behind
the `Arc<Mutex<...>>`, embedded as a map from ids to optional records. -/
structure InMemoryLinkStore where
  links : Nat → Option Link

/-- `LinkStore::get` for `InMemoryLinkStore`:
`self.links.lock().unwrap().get(&id).cloned()`. -/
def InMemoryLinkStore.get (s : InMemoryLinkStore) (id : Nat) : Option Link :=
  s.links id

/-- `LinkStore::create` for `InMemoryLinkStore`:
`self.links.lock().unwrap().insert(link.id, link); Ok(())`. The returned
`Result` is paired with the updated store. -/
def InMemoryLinkStore.create (s : InMemoryLinkStore) (link : Link) :
    Except String Unit × InMemoryLinkStore :=
  (Except.ok (),
   ⟨fun k => if k = link.id then some link else s.links k⟩)

/-- `LinkStore::update` for `InMemoryLinkStore`: if
`self.links.lock().unwrap().contains_key(&id)` then
`self.links.lock().unwrap().insert(id, link); Ok(())` else
`Err("Link not found")`. -/
def InMemoryLinkStore.update (s : InMemoryLinkStore) (id : Nat) (link : Link) :
    Except String Unit × InMemoryLinkStore :=
  if (s.links id).isSome then
    (Except.ok (),
     ⟨fun k => if k = id then some link else s.links k⟩)
  else
    (Except.error "Link not found", s)

/-- `LinkStore::delete` for `InMemoryLinkStore`: if
`self.links.lock().unwrap().remove(&id).is_some()` then `Ok(())` else
`Err("Link not found")`. -/
def InMemoryLinkStore.delete (s : InMemoryLinkStore) (id : Nat) :
    Except String Unit × InMemoryLinkStore :=
  if (s.links id).isSome then
    (Except.ok (),
     ⟨fun k => if k = id then none else s.links k⟩)
  else
    (Except.error "Link not found", s)

/-!
Lock-granularity model. Each `self.links.lock().unwrap().<method>(...)`
expression in the source is one critical section: the mutex is acquired,
one map operation runs, and the mutex is released. To reason about how
many critical sections each store operation executes (and what a
concurrent caller may do between two of them), each store operation is
also given as a small program over atomic map actions, one action per
`lock()` call in the source.
-/

/-- One atomic, lock-guarded map operation, as they occur in
`src/lib.rs`: `get(&id).cloned()`, `insert(id, link)` (returns the
previous value, as `HashMap::insert` does), `contains_key(&id)`, and
`remove(&id)`. -/
inductive MapAction where
  | getCloned (id : Nat)
  | insert (id : Nat) (link : Link)
  | containsKey (id : Nat)
  | remove (id : Nat)
deriving DecidableEq, Repr

/-- The value a lock-guarded map operation hands back to its caller. -/
inductive MapOut where
  | boolOut (b : Bool)
  | optOut (o : Option Link)
deriving DecidableEq, Repr

/-- Semantics of one atomic map action on the shared map. -/
def MapAction.run : MapAction → (Nat → Option Link) → (Nat → Option Link) × MapOut
  | MapAction.getCloned id, m => (m, MapOut.optOut (m id))
  | MapAction.containsKey id, m => (m, MapOut.boolOut (m id).isSome)
  | MapAction.insert id link, m =>
      ((fun k => if k = id then some link else m k), MapOut.optOut (m id))
  | MapAction.remove id, m =>
      ((fun k => if k = id then none else m k), MapOut.optOut (m id))

/-- A store operation as a sequence of critical sections: either finished
with a result, or one more lock-guarded atomic action followed by a
continuation that may inspect that action's output. Between two `step`s
the lock is free and other threads may run. -/
inductive Prog (α : Type) where
  | done (a : α)
  | step (act : MapAction) (k : MapOut → Prog α)

/-- Run a program to completion with no interference, returning the final
map and result. -/
def Prog.run {α : Type} : Prog α → (Nat → Option Link) → (Nat → Option Link) × α
  | Prog.done a, m => (m, a)
  | Prog.step act k, m =>
      let p := act.run m
      Prog.run (k p.2) p.1

/-- The number of critical sections (lock acquisitions) a program
executes when run from map `m` with no interference. -/
def Prog.sections {α : Type} : Prog α → (Nat → Option Link) → Nat
  | Prog.done _, _ => 0
  | Prog.step act k, m =>
      let p := act.run m
      Prog.sections (k p.2) p.1 + 1

/-- `get` as critical sections: the single locked `get(&id).cloned()`. -/
def getProg (id : Nat) : Prog (Option Link) :=
  Prog.step (MapAction.getCloned id) fun out =>
    Prog.done (match out with
      | MapOut.optOut o => o
      | MapOut.boolOut _ => none)

/-- `create` as critical sections: the single locked `insert`. -/
def createProg (link : Link) : Prog (Except String Unit) :=
  Prog.step (MapAction.insert link.id link) fun _ =>
    Prog.done (Except.ok ())

/-- `update` as critical sections: a locked `contains_key(&id)` and,
when it returned `true`, a second, separately locked `insert(id, link)`. -/
def updateProg (id : Nat) (link : Link) : Prog (Except String Unit) :=
  Prog.step (MapAction.containsKey id) fun out =>
    match out with
    | MapOut.boolOut true =>
        Prog.step (MapAction.insert id link) fun _ =>
          Prog.done (Except.ok ())
    | _ => Prog.done (Except.error "Link not found")

/-- `delete` as critical sections: the single locked `remove(&id)`,
whose returned previous value decides the result. -/
def deleteProg (id : Nat) : Prog (Except String Unit) :=
  Prog.step (MapAction.remove id) fun out =>
    match out with
    | MapOut.optOut (some _) => Prog.done (Except.ok ())
    | _ => Prog.done (Except.error "Link not found")

/-!
Concrete fixtures, mirroring values the crate's tests and the `url`
crate produce.
-/

/-- `url::Url::parse("https://www.example.com")`: serialization
`"https://www.example.com/"`, host `Some("www.example.com")`. -/
def exampleDotCom : UrlType :=
  { serialization := "https://www.example.com/"
    hostStr := some "www.example.com" }

/-- `url::Url::parse("data:text/plain,hello")`: an opaque
(cannot-be-a-base) URL, for which `host_str()` returns `None`. -/
def dataUrl : UrlType :=
  { serialization := "data:text/plain,hello"
    hostStr := none }

/-- `url::Url::parse("file:///tmp/x")`: a file URL with an empty host,
for which `host_str()` returns `Some("")`. -/
def fileUrl : UrlType :=
  { serialization := "file:///tmp/x"
    hostStr := some "" }

/-- A concrete link record with id 3. -/
def link1 : Link :=
  { id := 3, origin := exampleDotCom, target := exampleDotCom
    created_at := 0, updated_at := 0 }

/-- A second concrete link record, also with id 3 but different fields. -/
def link2 : Link :=
  { id := 3, origin := fileUrl, target := fileUrl
    created_at := 1, updated_at := 1 }

/-- `InMemoryLinkStore::new()`: an empty map behind the lock. -/
def InMemoryLinkStore.new : InMemoryLinkStore :=
  ⟨fun _ => none⟩

/-- A concrete store holding exactly `link1` under id 3. -/
def store1 : InMemoryLinkStore :=
  (InMemoryLinkStore.new.create link1).2

/-!
Theorems for the claims.
-/

/-- C1 (amended): for every `Url` whose origin has no host component
(`host_str()` returns `None`, e.g. an opaque or relative URL), `shorten`
panics (aborts) at the `unwrap()` rather than returning an error; the
shortcut is not assigned, since the panic occurs before the assignment.
The `RelativeUrlWithoutBase` ("relative URL without a base") error is
returned only when `host_str()` is present but empty, in which case the
shortcut is set to the empty string. -/
theorem shorten_hostless (u : Url) :
    (u.origin.hostStr = none → Url.shorten u = none) ∧
    (u.origin.hostStr = some "" →
      Url.shorten u =
        some (Except.error ParseError.RelativeUrlWithoutBase,
              { u with shortcut := "" })) := by
  constructor
  · intro h
    simp [Url.shorten, h]
  · intro h
    simp [Url.shorten, h]
    rfl

/-- C1, counterexample to the claim as stated: on the opaque URL
`data:text/plain,hello` (no host), `shorten` aborts (`none` models the
`unwrap()` panic); it does not return a "URL has no host" error. -/
theorem shorten_hostless_cex :
    Url.shorten { origin := dataUrl, shortcut := "" } = none := rfl

/-- Witness for C1's amended theorem at concrete inputs. -/
theorem shorten_hostless_witness :
    Url.shorten { origin := dataUrl, shortcut := "" } = none ∧
    Url.shorten { origin := fileUrl, shortcut := "" } =
      some (Except.error ParseError.RelativeUrlWithoutBase,
            { origin := fileUrl, shortcut := "" }) :=
  ⟨(shorten_hostless { origin := dataUrl, shortcut := "" }).1 rfl,
   (shorten_hostless { origin := fileUrl, shortcut := "" }).2 rfl⟩

/-- C2: for every `Url` whose origin has a non-empty host `h`,
`shorten` returns `Ok(true)` and afterwards the shortcut equals `h`
exactly. -/
theorem shorten_with_host (u : Url) (h : String)
    (hh : u.origin.hostStr = some h) (hne : h ≠ "") :
    Url.shorten u = some (Except.ok true, { u with shortcut := h }) := by
  have he : h.isEmpty = false := by
    cases he : h.isEmpty
    · rfl
    · exact absurd ((String.isEmpty_iff h).mp he) hne
  simp [Url.shorten, hh, he]

/-- Witness for C2 at `https://www.example.com`. -/
theorem shorten_with_host_witness :
    Url.shorten { origin := exampleDotCom, shortcut := "" } =
      some (Except.ok true,
            { origin := exampleDotCom, shortcut := "www.example.com" }) :=
  shorten_with_host { origin := exampleDotCom, shortcut := "" }
    "www.example.com" rfl (by decide)

/-- C7: `shorten` is idempotent with respect to a fixed origin: when a
call on `u` completes with result `r` and updated record `u'` (it did
not panic), a second call on `u'` completes with the same result and
leaves the record in the same state `u'`. -/
theorem shorten_idempotent (u : Url) (r : Except ParseError Bool) (u' : Url)
    (h : Url.shorten u = some (r, u')) :
    Url.shorten u' = some (r, u') := by
  cases hh : u.origin.hostStr with
  | none =>
    simp [Url.shorten, hh] at h
  | some host =>
    simp only [Url.shorten, hh] at h
    cases he : host.isEmpty with
    | false =>
      rw [if_pos (by simp [he])] at h
      have h2 := Option.some.inj h
      have hr : r = Except.ok true := (congrArg Prod.fst h2).symm
      have hu : u' = { u with shortcut := host } := (congrArg Prod.snd h2).symm
      subst hr hu
      simp [Url.shorten, hh, he]
    | true =>
      rw [if_neg (by simp [he])] at h
      have h2 := Option.some.inj h
      have hr : r = Except.error ParseError.RelativeUrlWithoutBase :=
        (congrArg Prod.fst h2).symm
      have hu : u' = { u with shortcut := host } := (congrArg Prod.snd h2).symm
      subst hr hu
      simp [Url.shorten, hh, he]

/-- Witness for C7 at `https://www.example.com`. -/
theorem shorten_idempotent_witness :
    Url.shorten { origin := exampleDotCom, shortcut := "www.example.com" } =
      some (Except.ok true,
            { origin := exampleDotCom, shortcut := "www.example.com" }) :=
  shorten_idempotent { origin := exampleDotCom, shortcut := "" }
    (Except.ok true) { origin := exampleDotCom, shortcut := "www.example.com" }
    rfl

/-- C8: rendering (`Display`) a `Url` whose shortcut is still empty
aborts — `panic!("Not initialized")`, modelled as `none` — rather than
returning a recoverable error; with a non-empty shortcut rendering does
not abort. -/
theorem display_abort (u : Url) :
    (u.shortcut = "" → Url.display u = none) ∧
    (u.shortcut ≠ "" → (Url.display u).isSome = true) := by
  constructor
  · intro h
    simp [Url.display, h]
    rfl
  · intro h
    simp [Url.display, String.isEmpty_iff, h]

/-- Witness for C8 at concrete records. -/
theorem display_abort_witness :
    Url.display { origin := exampleDotCom, shortcut := "" } = none ∧
    (Url.display { origin := exampleDotCom,
                   shortcut := "www.example.com" }).isSome = true :=
  ⟨(display_abort { origin := exampleDotCom, shortcut := "" }).1 rfl,
   (display_abort { origin := exampleDotCom,
                    shortcut := "www.example.com" }).2 (by decide)⟩

/-- C10: for every `Url` with a non-empty shortcut, the `Display` form
is the string of the full origin URL (its serialization), not the
derived shortcut. -/
theorem display_shows_origin (u : Url) (h : u.shortcut ≠ "") :
    Url.display u = some u.origin.serialization ∧
    (u.origin.serialization ≠ u.shortcut → Url.display u ≠ some u.shortcut) := by
  have hd : Url.display u = some u.origin.serialization := by
    simp [Url.display, String.isEmpty_iff, h]
  refine ⟨hd, fun hne hc => hne ?_⟩
  rw [hd] at hc
  exact Option.some.inj hc

/-- Witness for C10: a shortened example record displays as its origin,
not as its shortcut. -/
theorem display_shows_origin_witness :
    Url.display { origin := exampleDotCom, shortcut := "www.example.com" } =
      some "https://www.example.com/" ∧
    Url.display { origin := exampleDotCom, shortcut := "www.example.com" } ≠
      some "www.example.com" :=
  ⟨(display_shows_origin
      { origin := exampleDotCom, shortcut := "www.example.com" }
      (by decide)).1,
   (display_shows_origin
      { origin := exampleDotCom, shortcut := "www.example.com" }
      (by decide)).2 (by decide)⟩

/-- C3 (amended): equality between a `Url` record and a raw URL or
string is defined on `origin` alone (the shortcut plays no role), but
equality between two `Url` records is the derived field-wise equality:
it requires both the origins and the shortcuts to be equal. -/
theorem equality_on_origin (a b : Url) (s : String) (t : UrlType) :
    (strEqUrl s a = true ↔ s = a.origin.serialization) ∧
    (urlTypeEqUrl t a = true ↔ t.serialization = a.origin.serialization) ∧
    (a.origin = b.origin → strEqUrl s a = strEqUrl s b) ∧
    (a.origin = b.origin → urlTypeEqUrl t a = urlTypeEqUrl t b) ∧
    (urlEq a b = true ↔
      a.origin.serialization = b.origin.serialization ∧
      a.shortcut = b.shortcut) := by
  refine ⟨?_, ?_, ?_, ?_, ?_⟩
  · simp [strEqUrl]
  · simp [urlTypeEqUrl, UrlType.beq]
  · intro h
    simp only [strEqUrl, h]
  · intro h
    simp only [urlTypeEqUrl, h]
  · simp [urlEq, UrlType.beq]

/-- C3, counterexample to the claim as stated: two records with the
same origin but different shortcuts are not equal under the derived
record equality. -/
theorem equality_on_origin_cex :
    urlEq { origin := exampleDotCom, shortcut := "a" }
          { origin := exampleDotCom, shortcut := "b" } = false := rfl

/-- Witness for C3's amended theorem at concrete inputs. -/
theorem equality_on_origin_witness :
    strEqUrl "https://www.example.com/"
        { origin := exampleDotCom, shortcut := "a" } =
      strEqUrl "https://www.example.com/"
        { origin := exampleDotCom, shortcut := "b" } ∧
    urlTypeEqUrl exampleDotCom { origin := exampleDotCom, shortcut := "a" } =
      urlTypeEqUrl exampleDotCom { origin := exampleDotCom, shortcut := "b" } :=
  ⟨(equality_on_origin { origin := exampleDotCom, shortcut := "a" }
      { origin := exampleDotCom, shortcut := "b" }
      "https://www.example.com/" exampleDotCom).2.2.1 rfl,
   (equality_on_origin { origin := exampleDotCom, shortcut := "a" }
      { origin := exampleDotCom, shortcut := "b" }
      "https://www.example.com/" exampleDotCom).2.2.2.1 rfl⟩

/-- C4: `create` always returns `Ok(())` and a subsequent `get` of the
record's id returns the record; in particular a second `create` with
the same id overwrites the first (upsert). The store `s` is arbitrary,
so the first two conjuncts already cover the case where a record
previously existed under `r.id`. -/
theorem create_get (s : InMemoryLinkStore) (r r2 : Link) :
    (s.create r).1 = Except.ok () ∧
    (s.create r).2.get r.id = some r ∧
    (r2.id = r.id → ((s.create r).2.create r2).2.get r.id = some r2) := by
  refine ⟨rfl, ?_, ?_⟩
  · simp [InMemoryLinkStore.create, InMemoryLinkStore.get]
  · intro h
    simp [InMemoryLinkStore.create, InMemoryLinkStore.get, h]

/-- Witness for C4: creating `link1` then `link2` (same id 3) in the
empty store leaves `link2` under id 3. -/
theorem create_get_witness :
    ((InMemoryLinkStore.new.create link1).2.create link2).2.get link1.id =
      some link2 :=
  (create_get InMemoryLinkStore.new link1 link2).2.2 rfl

/-- C5: `update` on an absent id returns the "Link not found" error and
leaves every entry of the mapping unchanged; on a present id it returns
`Ok(())` and replaces the stored record wholesale. -/
theorem update_semantics (s : InMemoryLinkStore) (id : Nat) (r : Link) :
    (s.get id = none →
      (s.update id r).1 = Except.error "Link not found" ∧
      ∀ k, (s.update id r).2.get k = s.get k) ∧
    ((s.get id).isSome = true →
      (s.update id r).1 = Except.ok () ∧
      (s.update id r).2.get id = some r) := by
  constructor
  · intro h
    have hn : (s.links id).isSome = false := by
      simp [InMemoryLinkStore.get] at h
      simp [h]
    constructor
    · simp [InMemoryLinkStore.update, hn]
    · intro k
      simp [InMemoryLinkStore.update, hn]
  · intro h
    have hs : (s.links id).isSome = true := h
    constructor
    · simp [InMemoryLinkStore.update, hs]
    · simp [InMemoryLinkStore.update, InMemoryLinkStore.get, hs]

/-- Witness for C5: in the store holding only `link1` under id 3,
updating id 5 fails and changes nothing, updating id 3 succeeds and
replaces the record with `link2`. -/
theorem update_semantics_witness :
    (store1.update 5 link2).1 = Except.error "Link not found" ∧
    (store1.update 5 link2).2.get 3 = store1.get 3 ∧
    (store1.update 3 link2).1 = Except.ok () ∧
    (store1.update 3 link2).2.get 3 = some link2 :=
  ⟨((update_semantics store1 5 link2).1 rfl).1,
   ((update_semantics store1 5 link2).1 rfl).2 3,
   ((update_semantics store1 3 link2).2 rfl).1,
   ((update_semantics store1 3 link2).2 rfl).2⟩

/-- C6: `delete` on an absent id returns the "Link not found" error; on
a present id it returns `Ok(())`, removes the record, and a subsequent
`get` of that id returns none. -/
theorem delete_semantics (s : InMemoryLinkStore) (id : Nat) :
    (s.get id = none →
      (s.delete id).1 = Except.error "Link not found" ∧
      ∀ k, (s.delete id).2.get k = s.get k) ∧
    ((s.get id).isSome = true →
      (s.delete id).1 = Except.ok () ∧
      (s.delete id).2.get id = none) := by
  constructor
  · intro h
    have hn : (s.links id).isSome = false := by
      simp [InMemoryLinkStore.get] at h
      simp [h]
    constructor
    · simp [InMemoryLinkStore.delete, hn]
    · intro k
      simp [InMemoryLinkStore.delete, hn]
  · intro h
    have hs : (s.links id).isSome = true := h
    constructor
    · simp [InMemoryLinkStore.delete, hs]
    · simp [InMemoryLinkStore.delete, InMemoryLinkStore.get, hs]

/-- Witness for C6: deleting id 3 from the store holding `link1` under
id 3 succeeds and empties that slot; deleting id 5 fails. -/
theorem delete_semantics_witness :
    (store1.delete 5).1 = Except.error "Link not found" ∧
    (store1.delete 3).1 = Except.ok () ∧
    (store1.delete 3).2.get 3 = none :=
  ⟨((delete_semantics store1 5).1 rfl).1,
   ((delete_semantics store1 3).2 rfl).1,
   ((delete_semantics store1 3).2 rfl).2⟩

/-- Sanity: each critical-section program, run without interference,
computes exactly the direct embedding of the corresponding store
operation (same final map, same result). -/
theorem progs_agree (s : InMemoryLinkStore) (id : Nat) (link : Link) :
    Prog.run (getProg id) s.links = (s.links, s.get id) ∧
    Prog.run (createProg link) s.links =
      ((s.create link).2.links, (s.create link).1) ∧
    Prog.run (updateProg id link) s.links =
      ((s.update id link).2.links, (s.update id link).1) ∧
    Prog.run (deleteProg id) s.links =
      ((s.delete id).2.links, (s.delete id).1) := by
  refine ⟨?_, ?_, ?_, ?_⟩
  · simp [Prog.run, getProg, MapAction.run, InMemoryLinkStore.get]
  · simp [Prog.run, createProg, MapAction.run, InMemoryLinkStore.create]
  · cases h : s.links id <;>
      simp [Prog.run, updateProg, MapAction.run, InMemoryLinkStore.update, h]
  · cases h : s.links id with
    | some l =>
      simp [Prog.run, deleteProg, MapAction.run, InMemoryLinkStore.delete, h]
    | none =>
      simp [Prog.run, deleteProg, MapAction.run, InMemoryLinkStore.delete, h]
      funext k
      by_cases hk : k = id
      · subst hk
        simp [h]
      · simp [hk]

/-- C9 (amended): `get`, `create` and `delete` each execute exactly one
critical section (one lock acquisition); `update` executes two when the
id is present (the `contains_key` check and the `insert` are separately
locked) and one when it is absent, so `update` is not a single
self-contained critical section. Each individual map mutation is still
one atomic action under the lock. -/
theorem critical_sections (id : Nat) (link : Link) (m : Nat → Option Link) :
    Prog.sections (getProg id) m = 1 ∧
    Prog.sections (createProg link) m = 1 ∧
    Prog.sections (deleteProg id) m = 1 ∧
    ((m id).isSome = true → Prog.sections (updateProg id link) m = 2) ∧
    ((m id).isSome = false → Prog.sections (updateProg id link) m = 1) := by
  refine ⟨?_, ?_, ?_, ?_, ?_⟩
  · simp [Prog.sections, getProg, MapAction.run]
  · simp [Prog.sections, createProg, MapAction.run]
  · cases hmi : m id <;>
      simp [Prog.sections, deleteProg, MapAction.run, hmi]
  · intro h
    simp [Prog.sections, updateProg, MapAction.run, h]
  · intro h
    simp [Prog.sections, updateProg, MapAction.run, h]

/-- C9, counterexample to the claim as stated: on a store holding id 3,
`update` executes two critical sections, not one; and because the lock
is released between them, a full `delete` by another thread can run in
between, after which the interleaved execution leaves id 3 present —
an outcome neither serial order (update then delete, or delete then
update) can produce, both of which leave id 3 absent. -/
theorem critical_sections_cex :
    Prog.sections (updateProg 3 link2) store1.links = 2 ∧
    ((MapAction.insert 3 link2).run
        (Prog.run (deleteProg 3)
          ((MapAction.containsKey 3).run store1.links).1).1).1 3 =
      some link2 ∧
    (Prog.run (deleteProg 3)
        (Prog.run (updateProg 3 link2) store1.links).1).1 3 = none ∧
    (Prog.run (updateProg 3 link2)
        (Prog.run (deleteProg 3) store1.links).1).1 3 = none :=
  ⟨rfl, rfl, rfl, rfl⟩

/-- Witness for C9's amended theorem at concrete inputs. -/
theorem critical_sections_witness :
    Prog.sections (getProg 3) store1.links = 1 ∧
    Prog.sections (createProg link2) store1.links = 1 ∧
    Prog.sections (deleteProg 3) store1.links = 1 ∧
    Prog.sections (updateProg 3 link2) store1.links = 2 ∧
    Prog.sections (updateProg 5 link2) store1.links = 1 :=
  ⟨(critical_sections 3 link2 store1.links).1,
   (critical_sections 3 link2 store1.links).2.1,
   (critical_sections 3 link2 store1.links).2.2.1,
   (critical_sections 3 link2 store1.links).2.2.2.1 rfl,
   (critical_sections 5 link2 store1.links).2.2.2.2 rfl⟩
